import Mathlib

/-!
Verification of the frame-processing pipeline of `src/app.py`
(RTSP/webcam face-detection tool) against its specification.

The Python source is shallowly embedded: pure helpers become Lean
functions, the main loop becomes explicit state passing over a trace of
read events, and the opaque OpenCV capabilities (cascade detectors,
`convertScaleAbs`, `rectangle`) are modelled at the granularity their
documented semantics fixes.
-/

/-- A detected bounding box `(x, y, w, h)`, as returned by
`detectMultiScale` in `src/app.py`. -/
structure Box where
  x : Nat
  y : Nat
  w : Nat
  h : Nat
deriving DecidableEq, Repr

/-- A BGR colour triple. -/
abbrev Color := Nat × Nat × Nat

/-- A colour frame: a pixel buffer addressed by `(column, row)`. -/
abbrev Frame := Nat × Nat → Color

/-- A grayscale image, input to the detectors. -/
abbrev Gray := Nat × Nat → Nat

/-- An opaque cascade detector capability: given a grayscale image, a
scale factor, a minNeighbors count and a minimum size it yields a list of
boxes.  This models `CascadeClassifier.detectMultiScale` as called in
`detect_faces` (src/app.py lines 95-109). -/
abbrev Detector := Gray → ℚ → ℤ → Nat → List Box

/-- Embedding of `detect_faces` (src/app.py lines 94-113): run the
frontal detector with the caller-supplied parameters; if a profile
detector is configured, run it with scale factor `max(1.05, scale_factor)`,
minNeighbors `max(3, min_neighbors - 1)` and the same minimum size, and
append its boxes to the frontal ones when it found any. -/
def detect_faces (gray : Gray) (frontal : Detector) (profile : Option Detector)
    (scale_factor : ℚ) (min_neighbors : ℤ) (min_size : Nat) : List Box :=
  let faces := frontal gray scale_factor min_neighbors min_size
  match profile with
  | none => faces
  | some prof =>
    let faces_prof :=
      prof gray (max (21/20 : ℚ) scale_factor) (max 3 (min_neighbors - 1)) min_size
    if 0 < faces_prof.length then faces ++ faces_prof else faces

/-- The fixed rectangle colour used by `annotate` (src/app.py line 115):
BGR green `(0, 255, 0)`. -/
def rectColor : Color := (0, 255, 0)

/-- The stroke band painted by `cv2.rectangle(frame, (x,y), (x+w,y+h), c, 2)`
at pixel `(i, j)`.  Modelled from OpenCV's documented behaviour: the
unfilled rectangle outline from `(x, y)` to `(x+w, y+h)` drawn with stroke
width 2 centred on the outline; pixels strictly inside the stroke-free
interior and pixels beyond the outer edge of the stroke are untouched. -/
def onBorder (b : Box) (i j : Nat) : Bool :=
  decide ((b.x ≤ i + 1 ∧ i ≤ b.x + b.w + 1 ∧ b.y ≤ j + 1 ∧ j ≤ b.y + b.h + 1) ∧
    ¬(b.x + 2 ≤ i ∧ i + 2 ≤ b.x + b.w ∧ b.y + 2 ≤ j ∧ j + 2 ≤ b.y + b.h))

/-- One `cv2.rectangle` call: paint the stroke band of `b` with colour `c`,
leave every other pixel of the buffer as it was. -/
def drawRect (f : Frame) (b : Box) (c : Color) : Frame :=
  fun p => if onBorder b p.1 p.2 then c else f p

/-- Embedding of `annotate` (src/app.py lines 115-118): draw a green
rectangle of stroke width 2 for each box, sequentially updating the same
pixel buffer, and return that buffer. -/
def annotate (frame : Frame) (faces : List Box) : Frame :=
  match faces with
  | [] => frame
  | b :: rest => annotate (drawRect frame b rectColor) rest

/-- OpenCV's `cvRound`: round to the nearest integer, ties to even. -/
def cvRound (q : ℚ) : ℤ :=
  if q - ⌊q⌋ < 1/2 then ⌊q⌋
  else if 1/2 < q - ⌊q⌋ then ⌊q⌋ + 1
  else if Even ⌊q⌋ then ⌊q⌋ else ⌊q⌋ + 1

/-- One channel value of `cv2.convertScaleAbs(frame, alpha, beta)`, the
first step of `preprocess_for_faces` (src/app.py line 58).  Modelled from
OpenCV's documented semantics: `dst = saturate_cast<uchar>(|alpha*src + beta|)`,
i.e. scale, take the ABSOLUTE VALUE, round, and saturate to `[0, 255]`. -/
def convertScaleAbsPix (alpha beta : ℚ) (v : Nat) : Nat :=
  (min 255 (cvRound |alpha * v + beta|)).toNat

/-- The first preprocessing step applied to a whole colour frame,
channel-wise. -/
def convertScaleAbsFrame (alpha beta : ℚ) (f : Frame) : Frame :=
  fun p =>
    (convertScaleAbsPix alpha beta (f p).1,
     convertScaleAbsPix alpha beta (f p).2.1,
     convertScaleAbsPix alpha beta (f p).2.2)

/-- The per-pixel formula the spec states for the first preprocessing
step, taken verbatim from its words: `clamp(alpha * input + beta, 0, 255)`
with no absolute value and no rounding. -/
def specAffineClamp (alpha beta : ℚ) (v : Nat) : ℚ :=
  max 0 (min 255 (alpha * v + beta))

/-- The run-wide configuration the main loop reads from its arguments:
`--save-interval` (seconds, float) and `--max-frames` (int, 0 = run
forever). -/
structure Config where
  save_interval : ℚ
  max_frames : ℤ

/-- The Controller's mutable counters (src/app.py lines 180-182): total
frames processed, frames saved, timestamp of the last save, plus a flag
recording that the loop broke out to shut down. -/
structure St where
  frames : Nat
  saved : Nat
  last_save : ℚ
  done : Bool
deriving Repr

/-- The counter state right after connecting (src/app.py lines 180-182):
`last_save = 0.0`, `saved = 0`, `frames = 0`. -/
def initSt : St := ⟨0, 0, 0, false⟩

/-- One iteration's read outcome: either `cap.read()` failed (or returned
no data), or it produced a frame, processed at wall-clock time `now`
(seconds since the epoch, the value `time.time()` returns at line 217). -/
inductive ReadEvent where
  | fail : ReadEvent
  | frame : ℚ → ReadEvent

/-- Processing of one successfully read frame by the loop body
(src/app.py lines 194-237), restricted to the counters: `frames` is
incremented, then the persistence gate compares `now - last_save` with
the save interval; on a save it increments `saved` and sets
`last_save = now`.  The returned Bool reports whether a save occurred. -/
def stepFrame (cfg : Config) (st : St) (now : ℚ) : St × Bool :=
  if cfg.save_interval ≤ now - st.last_save then
    (⟨st.frames + 1, st.saved + 1, now, st.done⟩, true)
  else
    (⟨st.frames + 1, st.saved, st.last_save, st.done⟩, false)

/-- The `while True` loop of `main` (src/app.py lines 187-241) run over a
trace of read outcomes: a failed read is logged, backed off and retried
without touching the counters; a successful read is processed by
`stepFrame`; after processing, the loop breaks (shutdown) once
`max_frames > 0` and `frames >= max_frames`. -/
def runLoop (cfg : Config) (st : St) : List ReadEvent → St
  | [] => st
  | ReadEvent.fail :: rest => runLoop cfg st rest
  | ReadEvent.frame now :: rest =>
    let st2 := (stepFrame cfg st now).1
    if 0 < cfg.max_frames ∧ cfg.max_frames ≤ (st2.frames : ℤ) then
      { st2 with done := true }
    else runLoop cfg st2 rest

/-- The number of successful reads in a trace. -/
def countFrames : List ReadEvent → Nat
  | [] => 0
  | ReadEvent.fail :: rest => countFrames rest
  | ReadEvent.frame _ :: rest => countFrames rest + 1

/-- Embedding of `health_check` (src/app.py lines 121-132) over the
outcome of the one open attempt and (if reached) the one read attempt:
`openOk` says whether `open_capture` returned a capture, `readRes` is the
`(ok, frame)` pair `cap.read()` would return.  The result pairs the exit
code with whether a read was attempted. -/
def health_check (openOk : Bool) (readRes : Bool × Option Frame) : Nat × Bool :=
  match openOk with
  | false => (1, false)
  | true =>
    if readRes.1 = false ∨ readRes.2.isNone = true then (2, true) else (0, true)

theorem cvRound_nonneg (q : ℚ) (h : 0 ≤ q) : 0 ≤ cvRound q := by
  have hfl : (0 : ℤ) ≤ ⌊q⌋ := Int.floor_nonneg.mpr h
  unfold cvRound
  split_ifs <;> omega

theorem stepFrame_saved_ge (cfg : Config) (st : St) (now : ℚ) :
    st.saved ≤ (stepFrame cfg st now).1.saved := by
  unfold stepFrame
  split_ifs <;> simp

theorem runLoop_saved_mono (cfg : Config) :
    ∀ (trace : List ReadEvent) (st : St), st.saved ≤ (runLoop cfg st trace).saved := by
  intro trace
  induction trace with
  | nil => intro st; exact le_refl _
  | cons e rest ih =>
    intro st
    cases e with
    | fail => exact ih st
    | frame now =>
      have h1 : st.saved ≤ (stepFrame cfg st now).1.saved := stepFrame_saved_ge cfg st now
      rw [runLoop]
      split
      · exact h1
      · exact le_trans h1 (ih _)

theorem loop_frames_aux (cfg : Config) (h0 : 0 < cfg.max_frames) :
    ∀ (trace : List ReadEvent) (st : St), (st.frames : ℤ) < cfg.max_frames →
      ((runLoop cfg st trace).frames : ℤ)
          = min cfg.max_frames (st.frames + countFrames trace)
        ∧ (cfg.max_frames ≤ (st.frames : ℤ) + countFrames trace →
            (runLoop cfg st trace).done = true) := by
  intro trace
  induction trace with
  | nil =>
    intro st hlt
    constructor
    · simp [runLoop, countFrames]; omega
    · intro hge; simp [countFrames] at hge; omega
  | cons e rest ih =>
    intro st hlt
    cases e with
    | fail =>
      simpa [runLoop, countFrames] using ih st hlt
    | frame now =>
      have hstep : ((stepFrame cfg st now).1.frames : ℤ) = (st.frames : ℤ) + 1 := by
        unfold stepFrame; split_ifs <;> simp
      rw [runLoop]
      simp only [countFrames]
      split
      · rename_i hbreak
        have hb2 : cfg.max_frames ≤ (st.frames : ℤ) + 1 := by
          rw [← hstep]; exact hbreak.2
        constructor
        · show ((stepFrame cfg st now).1.frames : ℤ) = _
          rw [hstep, min_eq_left (by push_cast; omega)]
          omega
        · intro _
          rfl
      · rename_i hnb
        have hlt2 : ((stepFrame cfg st now).1.frames : ℤ) < cfg.max_frames := by
          rcases not_and_or.mp hnb with h | h
          · exact absurd h0 h
          · omega
        have hrec := ih ((stepFrame cfg st now).1) hlt2
        constructor
        · rw [hrec.1, hstep]
          congr 1
          push_cast
          ring
        · intro hge
          refine hrec.2 ?_
          rw [hstep]
          push_cast at hge ⊢
          omega

/-- C1: with a profile detector configured, `detect_faces` returns exactly
`m + n` boxes: the `m` frontal boxes first, in order, followed by the `n`
profile boxes, with no deduplication or overlap suppression. -/
theorem detect_faces_is_concat (gray : Gray) (frontal prof : Detector)
    (sf : ℚ) (mn : ℤ) (ms : Nat) :
    (detect_faces gray frontal (some prof) sf mn ms).length
        = (frontal gray sf mn ms).length
          + (prof gray (max (21/20 : ℚ) sf) (max 3 (mn - 1)) ms).length
      ∧ (detect_faces gray frontal (some prof) sf mn ms).take
          (frontal gray sf mn ms).length = frontal gray sf mn ms
      ∧ (detect_faces gray frontal (some prof) sf mn ms).drop
          (frontal gray sf mn ms).length
          = prof gray (max (21/20 : ℚ) sf) (max 3 (mn - 1)) ms := by
  have hcat : detect_faces gray frontal (some prof) sf mn ms
      = frontal gray sf mn ms
        ++ prof gray (max (21/20 : ℚ) sf) (max 3 (mn - 1)) ms := by
    unfold detect_faces
    cases hP : prof gray (max (21/20 : ℚ) sf) (max 3 (mn - 1)) ms with
    | nil => simp [hP]
    | cons b bs => simp [hP]
  refine ⟨?_, ?_, ?_⟩
  · rw [hcat]; exact List.length_append _ _
  · rw [hcat]; exact List.take_left _ _
  · rw [hcat]; exact List.drop_left _ _

/-- C4: when a profile detector is configured, the fusion runs it with
scale factor `max(1.05, scale_factor)`, minNeighbors
`max(3, min_neighbors - 1)` and the same minimum size as the frontal pass,
appending its result to the frontal one; the relaxed parameters are
bounded below by 1.05 and 3 respectively. -/
theorem detect_faces_profile_params (gray : Gray) (frontal prof : Detector)
    (sf : ℚ) (mn : ℤ) (ms : Nat) :
    detect_faces gray frontal (some prof) sf mn ms
        = detect_faces gray frontal none sf mn ms
          ++ prof gray (max (21/20 : ℚ) sf) (max 3 (mn - 1)) ms
      ∧ (21/20 : ℚ) ≤ max (21/20 : ℚ) sf
      ∧ (3 : ℤ) ≤ max 3 (mn - 1) := by
  refine ⟨?_, le_max_left _ _, le_max_left _ _⟩
  unfold detect_faces
  cases hP : prof gray (max (21/20 : ℚ) sf) (max 3 (mn - 1)) ms with
  | nil => simp [hP]
  | cons b bs => simp [hP]

/-- C5: applying `annotate` with an empty detection result returns a frame
pixel-identical to its input. -/
theorem annotate_nil_id (frame : Frame) (p : Nat × Nat) :
    annotate frame [] p = frame p := rfl

/-- C10: `annotate` returns its own pixel buffer after the sequential
in-place rectangle draws: a pixel on the stroke band (width 2) of some box
holds the fixed colour, and every pixel outside all drawn rectangle
borders is unchanged from the input. -/
theorem annotate_pixel_effect (faces : List Box) (frame : Frame) (p : Nat × Nat) :
    annotate frame faces p
      = if faces.any (fun b => onBorder b p.1 p.2) then rectColor else frame p := by
  induction faces generalizing frame with
  | nil => simp [annotate]
  | cons b rest ih =>
    rw [annotate, ih]
    by_cases hb : onBorder b p.1 p.2 <;>
      cases hr : rest.any (fun b => onBorder b p.1 p.2) <;>
        simp [drawRect, hb, hr]

/-- C2 counterexample: at pixel value 0 with `alpha = 3/2 > 0` and
`beta = -30`, the first preprocessing step (OpenCV `convertScaleAbs`)
produces `|3/2 * 0 - 30| = 30`, while the spec's formula
`clamp(alpha * input + beta, 0, 255)` gives 0: the claimed identity fails
because `convertScaleAbs` takes an absolute value instead of clamping
below at 0. -/
theorem convertScaleAbs_ne_spec_formula :
    (0 : ℚ) < 3/2
      ∧ convertScaleAbsPix (3/2) (-30) 0 = 30
      ∧ specAffineClamp (3/2) (-30) 0 = 0
      ∧ (convertScaleAbsPix (3/2) (-30) 0 : ℚ) ≠ specAffineClamp (3/2) (-30) 0 := by
  have h1 : convertScaleAbsPix (3/2) (-30) 0 = 30 := by
    norm_num [convertScaleAbsPix, cvRound]
    decide
  have h2 : specAffineClamp (3/2) (-30) 0 = 0 := by
    norm_num [specAffineClamp]
  refine ⟨by norm_num, h1, h2, ?_⟩
  rw [h1, h2]
  norm_num

/-- C2 amended: for every pixel value and every `alpha > 0` and `beta`,
the first preprocessing step produces
`output = clamp(round(|alpha * input + beta|), 0, 255)` on every channel
(ties rounded to even); hence `0 ≤ output ≤ 255`, and when `beta ≥ 0` the
absolute value is redundant, so the output is the spec's clamped affine
value up to rounding. -/
theorem convertScaleAbs_clamp (alpha beta : ℚ) (v : Nat) (h : 0 < alpha) :
    (convertScaleAbsPix alpha beta v : ℤ)
        = max 0 (min 255 (cvRound |alpha * v + beta|))
      ∧ convertScaleAbsPix alpha beta v ≤ 255
      ∧ (0 ≤ beta →
          (convertScaleAbsPix alpha beta v : ℤ)
            = max 0 (min 255 (cvRound (alpha * v + beta)))) := by
  have hr : 0 ≤ cvRound |alpha * v + beta| :=
    cvRound_nonneg _ (abs_nonneg _)
  have hmin : 0 ≤ min 255 (cvRound |alpha * v + beta|) := by
    exact le_min (by norm_num) hr
  have hmax : max 0 (min 255 (cvRound |alpha * v + beta|))
      = min 255 (cvRound |alpha * v + beta|) := max_eq_right hmin
  have hcast : (convertScaleAbsPix alpha beta v : ℤ)
      = min 255 (cvRound |alpha * v + beta|) := by
    unfold convertScaleAbsPix
    exact Int.toNat_of_nonneg hmin
  refine ⟨by rw [hcast, hmax], ?_, ?_⟩
  · have hle : min 255 (cvRound |alpha * v + beta|) ≤ 255 := min_le_left _ _
    unfold convertScaleAbsPix
    omega
  · intro hb
    have hab : (0 : ℚ) ≤ alpha * v + beta := by
      have : (0 : ℚ) ≤ alpha * v := mul_nonneg h.le (Nat.cast_nonneg v)
      linarith
    have habs : |alpha * v + beta| = alpha * v + beta := abs_of_nonneg hab
    have hmin2 : 0 ≤ min 255 (cvRound (alpha * v + beta)) :=
      le_min (by norm_num) (cvRound_nonneg _ hab)
    rw [hcast, habs]
    exact (max_eq_right hmin2).symm

/-- C2 witness: the amended statement evaluated at `alpha = 3/2`,
`beta = 30`, pixel value 200: the output is
`clamp(round(|3/2 * 200 + 30|), 0, 255) = 255` and is within bounds. -/
theorem convertScaleAbs_clamp_witness :
    (0 : ℚ) < 3/2
      ∧ ((convertScaleAbsPix (3/2) 30 200 : ℤ)
            = max 0 (min 255 (cvRound |(3/2 : ℚ) * 200 + 30|))
          ∧ convertScaleAbsPix (3/2) 30 200 ≤ 255
          ∧ (0 ≤ (30 : ℚ) →
              (convertScaleAbsPix (3/2) 30 200 : ℤ)
                = max 0 (min 255 (cvRound ((3/2 : ℚ) * 200 + 30))))) := by
  have hc := convertScaleAbs_clamp (3/2) 30 200 (by norm_num)
  refine ⟨by norm_num, ?_⟩
  have hcast : ((200 : Nat) : ℚ) = (200 : ℚ) := by norm_num
  rw [hcast] at hc
  exact hc

/-- C3: on each processed frame the persistence gate fires if and only if
`now - last_save >= save_interval`; when it fires, `last_save` is set to
`now` (otherwise it is unchanged), `saved` grows by exactly the save
decision, and at most one save decision is made per processed frame. -/
theorem save_gate_per_frame (cfg : Config) (st : St) (now : ℚ) :
    ((stepFrame cfg st now).2 = true ↔ cfg.save_interval ≤ now - st.last_save)
      ∧ (stepFrame cfg st now).1.last_save
          = (if cfg.save_interval ≤ now - st.last_save then now else st.last_save)
      ∧ (stepFrame cfg st now).1.saved
          = st.saved + (if cfg.save_interval ≤ now - st.last_save then 1 else 0)
      ∧ (stepFrame cfg st now).1.saved ≤ st.saved + 1 := by
  unfold stepFrame
  split_ifs with h <;> simp [h]

/-- C6: with `max_frames = N > 0`, the loop processes exactly
`min N (number of successful reads)` frames — in particular exactly `N`
and never `N + 1` when the stream offers at least `N` frames — and then
breaks out to shutdown. -/
theorem max_frames_exact (cfg : Config) (trace : List ReadEvent)
    (h0 : 0 < cfg.max_frames) :
    ((runLoop cfg initSt trace).frames : ℤ)
        = min cfg.max_frames (countFrames trace)
      ∧ (cfg.max_frames ≤ (countFrames trace : ℤ) →
          (runLoop cfg initSt trace).done = true) := by
  have h := loop_frames_aux cfg h0 trace initSt (by simpa [initSt] using h0)
  simpa [initSt] using h

/-- C6 witness: `max_frames = 2` with three offered frames: exactly two
frames are processed and the loop reaches shutdown. -/
theorem max_frames_exact_witness :
    0 < (Config.mk 5 2).max_frames
      ∧ (((runLoop (Config.mk 5 2) initSt
            [ReadEvent.frame 6, ReadEvent.frame 7, ReadEvent.frame 8]).frames : ℤ)
            = min (Config.mk 5 2).max_frames
                (countFrames
                  [ReadEvent.frame 6, ReadEvent.frame 7, ReadEvent.frame 8])
          ∧ ((Config.mk 5 2).max_frames
                ≤ (countFrames
                    [ReadEvent.frame 6, ReadEvent.frame 7, ReadEvent.frame 8] : ℤ) →
              (runLoop (Config.mk 5 2) initSt
                [ReadEvent.frame 6, ReadEvent.frame 7, ReadEvent.frame 8]).done
                  = true)) :=
  ⟨by norm_num,
    max_frames_exact (Config.mk 5 2)
      [ReadEvent.frame 6, ReadEvent.frame 7, ReadEvent.frame 8] (by norm_num)⟩

/-- C7: health-check mode returns exit code 0 iff both the open and the
read succeed; it returns 1 exactly when the open fails, and in that case
no read is attempted; it returns 2 exactly when the open succeeds and the
read fails (no data or not ok). -/
theorem health_check_status (openOk : Bool) (rr : Bool × Option Frame) :
    ((health_check openOk rr).1 = 0
        ↔ (openOk = true ∧ rr.1 = true ∧ rr.2.isSome = true))
      ∧ ((health_check openOk rr).1 = 1 ↔ openOk = false)
      ∧ ((health_check openOk rr).2 = false ↔ openOk = false)
      ∧ ((health_check openOk rr).1 = 2
          ↔ (openOk = true ∧ (rr.1 = false ∨ rr.2.isNone = true))) := by
  rcases rr with ⟨ok, fr⟩
  cases openOk <;> cases ok <;> cases fr <;> simp [health_check]

/-- C8: any run of consecutive failed reads (five in a row included) is
absorbed inside the loop: the rest of the run proceeds exactly as if the
failures had not happened, and the failures alone leave every counter and
the loop state untouched — no termination, no frame-count increment, no
escalation. -/
theorem failed_reads_absorbed (cfg : Config) (st : St) (k : Nat)
    (rest : List ReadEvent) :
    runLoop cfg st (List.replicate k ReadEvent.fail ++ rest) = runLoop cfg st rest
      ∧ runLoop cfg st (List.replicate k ReadEvent.fail) = st := by
  have key : ∀ (m : Nat) (r : List ReadEvent),
      runLoop cfg st (List.replicate m ReadEvent.fail ++ r) = runLoop cfg st r := by
    intro m
    induction m with
    | zero => intro r; rfl
    | succ n ih =>
      intro r
      rw [List.replicate_succ, List.cons_append, runLoop]
      exact ih r
  refine ⟨key k rest, ?_⟩
  have h2 := key k []
  simpa [runLoop] using h2

/-- C9 counterexample: a run whose save interval is 2000000000 seconds
(non-negative) and whose first frame is read at epoch time 1700000000: the
gate compares `1700000000 - 0.0 < 2000000000` and does not save, so the
first processed frame does NOT always trigger a save for every
non-negative interval. -/
theorem first_frame_save_cex :
    (0 : ℚ) ≤ 2000000000
      ∧ (stepFrame (Config.mk 2000000000 0) initSt 1700000000).2 = false
      ∧ (runLoop (Config.mk 2000000000 0) initSt
          [ReadEvent.frame 1700000000]).saved = 0 := by
  refine ⟨by norm_num, ?_, ?_⟩
  · norm_num [stepFrame, initSt]
  · norm_num [runLoop, stepFrame, initSt]

/-- C9 amended: because `last_save` is initialized to 0.0 (the epoch)
rather than the run's start time, the first successfully processed frame
triggers a save whenever the (non-negative) save interval does not exceed
the first frame's epoch timestamp — which holds for every realistic
interval — and the saved counter reaches 1 on that frame. -/
theorem first_frame_always_saves (cfg : Config) (now : ℚ)
    (rest : List ReadEvent) (h0 : 0 ≤ cfg.save_interval)
    (h : cfg.save_interval ≤ now) :
    initSt.last_save = 0
      ∧ (stepFrame cfg initSt now).2 = true
      ∧ (stepFrame cfg initSt now).1.saved = 1
      ∧ 1 ≤ (runLoop cfg initSt (ReadEvent.frame now :: rest)).saved := by
  have hcond : cfg.save_interval ≤ now - initSt.last_save := by
    simpa [initSt] using h
  have hstep2 : (stepFrame cfg initSt now).2 = true := by
    unfold stepFrame
    rw [if_pos hcond]
  have hsaved : (stepFrame cfg initSt now).1.saved = 1 := by
    unfold stepFrame
    rw [if_pos hcond]
    simp [initSt]
  refine ⟨rfl, hstep2, hsaved, ?_⟩
  rw [runLoop]
  split
  · show 1 ≤ (stepFrame cfg initSt now).1.saved
    rw [hsaved]
  · have hmono := runLoop_saved_mono cfg rest ((stepFrame cfg initSt now).1)
    omega

/-- C9 witness: interval 5 s, first frame read at epoch time 1700000000:
the gate fires on the first frame and the saved counter reaches 1. -/
theorem first_frame_always_saves_witness :
    (0 : ℚ) ≤ (Config.mk 5 0).save_interval
      ∧ (Config.mk 5 0).save_interval ≤ (1700000000 : ℚ)
      ∧ (initSt.last_save = 0
          ∧ (stepFrame (Config.mk 5 0) initSt 1700000000).2 = true
          ∧ (stepFrame (Config.mk 5 0) initSt 1700000000).1.saved = 1
          ∧ 1 ≤ (runLoop (Config.mk 5 0) initSt
              [ReadEvent.frame 1700000000]).saved) :=
  ⟨by norm_num, by norm_num,
    first_frame_always_saves (Config.mk 5 0) 1700000000 []
      (by norm_num) (by norm_num)⟩
